import Mathlib

/-!
Verification of the enterprise ML pipeline orchestration layer
(`demo/enterprise_ml_pipeline.py`): the compliance rule engine
(`EnterpriseComplianceChain`), the notification dispatcher
(`EnterpriseNotificationChain`), and the top-level entry point
`run_enterprise_pipeline`.

The Python code is shallowly embedded: dictionaries become association
lists from `String` to `String`, the mutable compliance chain field
`audit_trail` becomes explicit state passing, the fallible chained
pipeline call becomes an `Except`-valued stage function supplied as a
parameter, and timestamps become an explicit `now : String` parameter.
-/

namespace EnterprisePipeline

/-- An execution context / Python dict: an association list of string
keys to string values (`field in data` in Python is key membership). -/
abbrev Ctx := List (String × String)

/-- Key membership test, the embedding of the Python test `field in data`. -/
def field_in (data : Ctx) (field : String) : Bool :=
  data.any (fun p => p.1 == field)

/-- The dict `compliance_result` built by `EnterpriseComplianceChain.validate`
(lines 54-82): timestamp, standards checked, overall status, violation
list, audit identifier, and the optional per-standard status keys that
the three `if` branches may add. -/
structure ComplianceResult where
  timestamp : String
  standards_checked : List String
  compliance_status : String
  violations : List String
  audit_id : String
  sox_status : Option String
  gdpr_status : Option String
  hipaa_status : Option String
deriving Repr, DecidableEq

/-- `EnterpriseComplianceChain`: its configured `standards` list and its
mutable `audit_trail` (a list of compliance results). -/
structure EnterpriseComplianceChain where
  standards : List String
  audit_trail : List ComplianceResult
deriving Repr, DecidableEq

/-- Default standards list from `EnterpriseComplianceChain.__init__`
(line 49): `["SOX", "GDPR", "HIPAA", "PCI_DSS"]`. -/
def default_standards : List String := ["SOX", "GDPR", "HIPAA", "PCI_DSS"]

/-- `_validate_sox_compliance` (lines 89-93): all of
`data_classification`, `access_controls`, `audit_trail` are keys of
`data`. Only presence is tested, values are never inspected. -/
def validate_sox_compliance (data : Ctx) : Bool :=
  ["data_classification", "access_controls", "audit_trail"].all (field_in data)

/-- `_validate_gdpr_compliance` (lines 95-99): all of `consent_status`,
`data_purpose`, `retention_period` are keys of `data`. -/
def validate_gdpr_compliance (data : Ctx) : Bool :=
  ["consent_status", "data_purpose", "retention_period"].all (field_in data)

/-- `_validate_hipaa_compliance` (lines 101-105): all of
`phi_classification`, `encryption_status`, `access_controls` are keys of
`data`. -/
def validate_hipaa_compliance (data : Ctx) : Bool :=
  ["phi_classification", "encryption_status", "access_controls"].all (field_in data)

/-- The pure computation of `EnterpriseComplianceChain.validate`
(lines 52-82), before the audit-trail append: build the base result with
`compliance_status := "PASSED"` and empty `violations`, then for each of
SOX, GDPR, HIPAA in the configured standards either record a COMPLIANT
per-standard status or append one violation string.  Note the source
never rewrites `compliance_status` after initialization. -/
def validate (standards : List String) (now : String) (data : Ctx) : ComplianceResult :=
  let r0 : ComplianceResult :=
    { timestamp := now
      standards_checked := standards
      compliance_status := "PASSED"
      violations := []
      audit_id := "audit_" ++ now
      sox_status := none
      gdpr_status := none
      hipaa_status := none }
  let r1 :=
    if standards.contains "SOX" then
      if validate_sox_compliance data then { r0 with sox_status := some "COMPLIANT" }
      else { r0 with violations := r0.violations ++ ["SOX violation detected"] }
    else r0
  let r2 :=
    if standards.contains "GDPR" then
      if validate_gdpr_compliance data then { r1 with gdpr_status := some "COMPLIANT" }
      else { r1 with violations := r1.violations ++ ["GDPR violation detected"] }
    else r1
  if standards.contains "HIPAA" then
    if validate_hipaa_compliance data then { r2 with hipaa_status := some "COMPLIANT" }
    else { r2 with violations := r2.violations ++ ["HIPAA violation detected"] }
  else r2

/-- `EnterpriseComplianceChain.validate` as a state transformer: compute
the result and append it to the own `audit_trail` of the chain (line 84),
returning both the result and the updated chain. -/
def chainValidate (ch : EnterpriseComplianceChain) (now : String) (data : Ctx) :
    ComplianceResult × EnterpriseComplianceChain :=
  let compliance_result := validate ch.standards now data
  (compliance_result, { ch with audit_trail := ch.audit_trail ++ [compliance_result] })

/-- `EnterpriseNotificationChain`: the two optional channel
configurations (lines 113-115). -/
structure EnterpriseNotificationChain where
  slack_webhook : Option String
  pagerduty_key : Option String
deriving Repr, DecidableEq

/-- The dict returned by `notify_success` / `notify_failure`: channels
actually notified and a status tag. -/
structure NotificationOutcome where
  notifications_sent : List String
  status : String
deriving Repr, DecidableEq

/-- The `error_details` dict built in the exception handler of
`run_enterprise_pipeline` (lines 332-338). -/
structure FailureDetail where
  error_type : String
  error_message : String
  execution_id : String
  timestamp : String
  severity : String
deriving Repr, DecidableEq

/-- A Python exception as seen by the handler: its type name
(`type(e).__name__`) and its message (`str(e)`). -/
structure PyException where
  name : String
  msg : String
deriving Repr, DecidableEq

/-- The final result dict of `run_enterprise_pipeline` (lines 306-321,
345-349), restricted to the fields the orchestration logic actually
computes (the constant demo metrics are omitted). -/
structure FinalResult where
  status : String
  execution_id : String
  compliance_status : String
  compliance_report : Option ComplianceResult
  notification_status : Option NotificationOutcome
  error_details : Option FailureDetail
deriving Repr, DecidableEq

/-- `EnterpriseNotificationChain.notify_success` (lines 117-138): if a
Slack webhook is configured the message is composed and `"slack"` is
recorded as notified; the function performs no fallible send and always
returns normally.  The composed message text does not affect the
outcome, so the `pipeline_result` argument is unused here. -/
def notify_success (c : EnterpriseNotificationChain) (_pipeline_result : FinalResult) :
    NotificationOutcome :=
  let notifications_sent : List String :=
    if c.slack_webhook.isSome then ["slack"] else []
  { notifications_sent := notifications_sent, status := "success" }

/-- `EnterpriseNotificationChain.notify_failure` (lines 140-159):
`"pagerduty"` is recorded as notified exactly when a PagerDuty key is
configured and the severity of the detail equals `"critical"`. -/
def notify_failure (c : EnterpriseNotificationChain) (error_details : FailureDetail) :
    NotificationOutcome :=
  let notifications_sent : List String :=
    if c.pagerduty_key.isSome && error_details.severity == "critical"
    then ["pagerduty"] else []
  { notifications_sent := notifications_sent, status := "failure_notified" }

/-- Does `pat` occur at the head of `s`? -/
def matchesAt : List Char → List Char → Bool
  | [], _ => true
  | _ :: _, [] => false
  | a :: as, b :: bs => a == b && matchesAt as bs

/-- Substring occurrence on character lists, the embedding of the Python
test `sub in s`. -/
def hasSub (pat : List Char) : List Char → Bool
  | [] => matchesAt pat []
  | c :: cs => matchesAt pat (c :: cs) || hasSub pat cs

/-- The severity classification of line 337:
`"critical" if "authentication" in str(e).lower() else "high"`. -/
def classify_severity (error_message : String) : String :=
  if hasSub ("authentication".toList) (error_message.toList.map Char.toLower)
  then "critical" else "high"

/-- The `pipeline_input` dict built at lines 278-291: the three call
arguments plus the fixed enterprise metadata entries. -/
def pipeline_input (dataset_id compliance_level analysis_type execution_id : String) : Ctx :=
  [("dataset_id", dataset_id),
   ("compliance_level", compliance_level),
   ("analysis_type", analysis_type),
   ("execution_id", execution_id),
   ("data_classification", "CONFIDENTIAL"),
   ("access_controls", "RBAC_ENABLED"),
   ("audit_trail", "REQUIRED"),
   ("consent_status", "EXPLICIT_CONSENT"),
   ("data_purpose", "BUSINESS_INTELLIGENCE"),
   ("retention_period", "7_YEARS"),
   ("phi_classification", "NON_PHI"),
   ("encryption_status", "AES_256_ENCRYPTED")]

/-- `run_enterprise_pipeline` (lines 261-349).  The chained pipeline
call `enterprise_ml_pipeline(pipeline_input)` is an external langchain
collaborator, passed here as the `pipeline` stage function; its failure
(`Except.error`) is the `except` branch.  On success the compliance
validator runs on `pipeline_input`, the success notification is sent and
the result carries status `"SUCCESS"`; on failure a `FailureDetail` is
classified by `classify_severity`, the failure notification is sent, and
the result carries status `"FAILURE"` with compliance status
`"UNKNOWN"`.  The (possibly updated) validator chain is returned
alongside the result. -/
def run_enterprise_pipeline (validator : EnterpriseComplianceChain)
    (notifier : EnterpriseNotificationChain) (now : String)
    (dataset_id compliance_level analysis_type : String)
    (pipeline : Ctx → Except PyException Ctx) :
    FinalResult × EnterpriseComplianceChain :=
  let execution_id := "exec_" ++ now
  let input := pipeline_input dataset_id compliance_level analysis_type execution_id
  match pipeline input with
  | Except.ok _pipeline_result =>
      let vres := chainValidate validator now input
      let compliance_result := vres.1
      let final0 : FinalResult :=
        { status := "SUCCESS"
          execution_id := execution_id
          compliance_status := compliance_result.compliance_status
          compliance_report := some compliance_result
          notification_status := none
          error_details := none }
      let notification_result := notify_success notifier final0
      ({ final0 with notification_status := some notification_result }, vres.2)
  | Except.error e =>
      let error_details : FailureDetail :=
        { error_type := e.name
          error_message := e.msg
          execution_id := execution_id
          timestamp := now
          severity := classify_severity e.msg }
      let _notification_result := notify_failure notifier error_details
      ({ status := "FAILURE"
         execution_id := execution_id
         compliance_status := "UNKNOWN"
         compliance_report := none
         notification_status := none
         error_details := some error_details },
       validator)


/-!
## Claims

Each theorem below settles one claim about the code.  Counterexamples
are closed statements refuting a claim at a concrete input; amended
theorems state what the code actually guarantees.
-/

/-- C1 (counterexample): with standards = {GDPR} and an empty context the
report has a non-empty violations list yet `compliance_status` is still
`"PASSED"` — the claimed equivalence between non-empty violations and a
non-PASSED status is false on the code, which never writes `"FAILED"`. -/
theorem C1_counterexample :
    (validate ["GDPR"] "t" []).violations ≠ [] ∧
    (validate ["GDPR"] "t" []).compliance_status = "PASSED" := by decide

/-- C1 (amended): `compliance_status` is always `"PASSED"` — `validate`
never sets it to `"FAILED"` — and the violations list is non-empty
exactly when at least one of the checked standards SOX, GDPR, HIPAA
fails its required-key presence check; failure is signalled only through
`violations`. -/
theorem C1_amended (standards : List String) (now : String) (data : Ctx) :
    (validate standards now data).compliance_status = "PASSED" ∧
    ((validate standards now data).violations ≠ [] ↔
      ("SOX" ∈ standards ∧ validate_sox_compliance data = false) ∨
      ("GDPR" ∈ standards ∧ validate_gdpr_compliance data = false) ∨
      ("HIPAA" ∈ standards ∧ validate_hipaa_compliance data = false)) := by
  by_cases hs : "SOX" ∈ standards <;> by_cases hg : "GDPR" ∈ standards <;>
    by_cases hh : "HIPAA" ∈ standards <;>
    cases hsv : validate_sox_compliance data <;>
    cases hgv : validate_gdpr_compliance data <;>
    cases hhv : validate_hipaa_compliance data <;>
    simp [validate, hs, hg, hh, hsv, hgv, hhv]

/-- C2 (counterexample): with standards = {GDPR} and a context missing
`consent_status`, violations is `["GDPR violation detected"]` as claimed,
but `compliance_status` is not `"FAILED"` (it stays `"PASSED"`). -/
theorem C2_counterexample :
    (validate ["GDPR"] "t" [("data_purpose", "X"), ("retention_period", "Y")]).violations
      = ["GDPR violation detected"] ∧
    (validate ["GDPR"] "t" [("data_purpose", "X"), ("retention_period", "Y")]).compliance_status
      ≠ "FAILED" := by decide

/-- C2 (amended): for every standards list and context and every
standard S among SOX, GDPR, HIPAA, the violations list of `validate`
contains exactly one entry naming S when S is configured and its
required-key presence check fails, and no entry naming S otherwise; the
per-standard status key of S is set (to COMPLIANT) exactly when S is
configured and passes, and left unset when S fails; `compliance_status`
is always `"PASSED"`, never `"FAILED"`.  In particular, with
standards = {GDPR} and a context missing `consent_status`, violations is
`["GDPR violation detected"]` while the status remains PASSED. -/
theorem C2_amended (standards : List String) (now : String) (data : Ctx) :
    ((validate standards now data).violations.count "SOX violation detected"
        = if "SOX" ∈ standards ∧ validate_sox_compliance data = false then 1 else 0) ∧
    ((validate standards now data).violations.count "GDPR violation detected"
        = if "GDPR" ∈ standards ∧ validate_gdpr_compliance data = false then 1 else 0) ∧
    ((validate standards now data).violations.count "HIPAA violation detected"
        = if "HIPAA" ∈ standards ∧ validate_hipaa_compliance data = false then 1 else 0) ∧
    ((validate standards now data).sox_status
        = if "SOX" ∈ standards ∧ validate_sox_compliance data = true
          then some "COMPLIANT" else none) ∧
    ((validate standards now data).gdpr_status
        = if "GDPR" ∈ standards ∧ validate_gdpr_compliance data = true
          then some "COMPLIANT" else none) ∧
    ((validate standards now data).hipaa_status
        = if "HIPAA" ∈ standards ∧ validate_hipaa_compliance data = true
          then some "COMPLIANT" else none) ∧
    (validate standards now data).compliance_status = "PASSED" ∧
    (validate ["GDPR"] now [("data_purpose", "X"), ("retention_period", "Y")]).violations
        = ["GDPR violation detected"] ∧
    (validate ["GDPR"] now [("data_purpose", "X"), ("retention_period", "Y")]).compliance_status
        = "PASSED" := by
  by_cases hs : "SOX" ∈ standards <;> by_cases hg : "GDPR" ∈ standards <;>
    by_cases hh : "HIPAA" ∈ standards <;>
    cases hsv : validate_sox_compliance data <;>
    cases hgv : validate_gdpr_compliance data <;>
    cases hhv : validate_hipaa_compliance data <;>
    simp [validate, hs, hg, hh, hsv, hgv, hhv] <;>
    simp +decide [validate_gdpr_compliance, field_in]

/-- C3 (confirmed): when every configured standard among SOX, GDPR,
HIPAA passes its required-key presence check, `validate` returns
`compliance_status = "PASSED"` with an empty violations list. -/
theorem C3_confirmed (standards : List String) (now : String) (data : Ctx)
    (hs : "SOX" ∈ standards → validate_sox_compliance data = true)
    (hg : "GDPR" ∈ standards → validate_gdpr_compliance data = true)
    (hh : "HIPAA" ∈ standards → validate_hipaa_compliance data = true) :
    (validate standards now data).compliance_status = "PASSED" ∧
    (validate standards now data).violations = [] := by
  by_cases h1 : "SOX" ∈ standards <;> by_cases h2 : "GDPR" ∈ standards <;>
    by_cases h3 : "HIPAA" ∈ standards <;>
    simp [validate, h1, h2, h3, hs, hg, hh]

/-- C3 (witness): the scenario standards = {SOX} with the three SOX keys
present gives PASSED with no violations. -/
theorem C3_witness :
    ((validate ["SOX"] "t"
        [("data_classification", "CONFIDENTIAL"), ("access_controls", "RBAC_ENABLED"),
         ("audit_trail", "REQUIRED")]).compliance_status = "PASSED" ∧
     (validate ["SOX"] "t"
        [("data_classification", "CONFIDENTIAL"), ("access_controls", "RBAC_ENABLED"),
         ("audit_trail", "REQUIRED")]).violations = []) :=
  C3_confirmed ["SOX"] "t"
    [("data_classification", "CONFIDENTIAL"), ("access_controls", "RBAC_ENABLED"),
     ("audit_trail", "REQUIRED")]
    (fun _ => by decide) (fun h => by simp at h) (fun h => by simp at h)

/-- C4 (confirmed): `notify_failure` records the paging channel exactly
when a PagerDuty key is configured and the severity is `"critical"`;
with severity `"high"` no channel is ever recorded, whatever the
configuration. -/
theorem C4_confirmed (c : EnterpriseNotificationChain) (d : FailureDetail) :
    ((notify_failure c d).notifications_sent.contains "pagerduty" = true ↔
      (c.pagerduty_key.isSome = true ∧ d.severity = "critical")) ∧
    (d.severity = "high" → (notify_failure c d).notifications_sent = []) := by
  constructor
  · cases hk : c.pagerduty_key <;> cases hsev : d.severity == "critical" <;>
      simp_all [notify_failure]
  · intro hhigh
    cases hk : c.pagerduty_key <;> simp [notify_failure, hhigh, hk]

/-- C4 (witness): instantiated at a chain with a PagerDuty key
configured and a severity-high detail: the paging channel is not
notified. -/
theorem C4_witness :
    (((notify_failure ⟨none, some "k"⟩
        ⟨"Exception", "downstream timeout", "e", "t", "high"⟩).notifications_sent.contains
          "pagerduty" = true ↔
      ((some "k" : Option String).isSome = true ∧ ("high" : String) = "critical")) ∧
     (("high" : String) = "high" → (notify_failure ⟨none, some "k"⟩
        ⟨"Exception", "downstream timeout", "e", "t", "high"⟩).notifications_sent = [])) :=
  C4_confirmed ⟨none, some "k"⟩ ⟨"Exception", "downstream timeout", "e", "t", "high"⟩

/-- C5 (confirmed): on a failing stage the entry point builds a
FailureDetail whose severity is `classify_severity` of the message,
which is `"critical"` exactly when the lowercased message contains the
substring `authentication`; the message `authentication token expired`
is classified critical and `downstream timeout` high. -/
theorem C5_confirmed (v : EnterpriseComplianceChain) (nt : EnterpriseNotificationChain)
    (now d c a : String) (e : PyException) :
    ((run_enterprise_pipeline v nt now d c a (fun _ => Except.error e)).1.error_details.map
        FailureDetail.severity = some (classify_severity e.msg)) ∧
    (classify_severity e.msg = "critical" ↔
      hasSub ("authentication".toList) (e.msg.toList.map Char.toLower) = true) ∧
    classify_severity "authentication token expired" = "critical" ∧
    classify_severity "downstream timeout" = "high" := by
  refine ⟨rfl, ?_, by decide, by decide⟩
  unfold classify_severity
  cases h : hasSub ("authentication".toList) (e.msg.toList.map Char.toLower) <;> simp [h]

/-- C6 (confirmed): when the chained pipeline call fails, the run result
carries no compliance report, the audit trail of the validator chain is
unchanged, and the status is `"FAILURE"` — compliance validation and the
audit append happen only after the stages succeed. -/
theorem C6_confirmed (v : EnterpriseComplianceChain) (nt : EnterpriseNotificationChain)
    (now d c a : String) (e : PyException) :
    ((run_enterprise_pipeline v nt now d c a (fun _ => Except.error e)).1.compliance_report
        = none) ∧
    ((run_enterprise_pipeline v nt now d c a (fun _ => Except.error e)).2.audit_trail
        = v.audit_trail) ∧
    ((run_enterprise_pipeline v nt now d c a (fun _ => Except.error e)).1.status
        = "FAILURE") :=
  ⟨rfl, rfl, rfl⟩

/-- C7 (counterexample): `validate` is not free of side effects — a call
on a chain with an empty audit trail leaves the trail non-empty, because
the method itself appends the report (line 84 of the source). -/
theorem C7_counterexample :
    (chainValidate ⟨["SOX"], []⟩ "t" []).2.audit_trail ≠ [] := by decide

/-- C7 (amended): each `validate` call appends exactly the produced
report to the own audit trail of the chain — persistence is performed by
`validate` itself, not separately by the caller — and changes nothing
else (the configured standards are untouched, and the report is the pure
function of standards, timestamp and context). -/
theorem C7_amended (ch : EnterpriseComplianceChain) (now : String) (data : Ctx) :
    (chainValidate ch now data).2.audit_trail
      = ch.audit_trail ++ [(chainValidate ch now data).1] ∧
    (chainValidate ch now data).2.standards = ch.standards ∧
    (chainValidate ch now data).1 = validate ch.standards now data :=
  ⟨rfl, rfl, rfl⟩

/-- C8 (confirmed): for every run whose stages succeed, the recorded
status is `"SUCCESS"` for every notification configuration — in
particular for the empty configuration, where the success notification
reaches zero channels, the status is still SUCCESS; the notification
outcome never alters the recorded status. -/
theorem C8_confirmed (v : EnterpriseComplianceChain) (nt : EnterpriseNotificationChain)
    (now d c a : String) (out : Ctx) :
    ((run_enterprise_pipeline v nt now d c a (fun _ => Except.ok out)).1.status = "SUCCESS") ∧
    ((run_enterprise_pipeline v ⟨none, none⟩ now d c a
        (fun _ => Except.ok out)).1.notification_status
      = some { notifications_sent := [], status := "success" }) :=
  ⟨rfl, rfl⟩

/-- C9 (counterexample): a context mapping every required SOX key to the
empty string still satisfies the SOX check and yields no violation — the
code tests key presence only, never that the value is non-empty. -/
theorem C9_counterexample :
    validate_sox_compliance
      [("data_classification", ""), ("access_controls", ""), ("audit_trail", "")] = true ∧
    (validate ["SOX"] "t"
      [("data_classification", ""), ("access_controls", ""), ("audit_trail", "")]).violations
      = [] := by decide

/-- C9 (amended): presence alone decides each per-standard check — a
context binding the required keys satisfies the standard for arbitrary
values, the empty string included; values are never inspected. -/
theorem C9_amended (a b c : String) :
    validate_sox_compliance
      [("data_classification", a), ("access_controls", b), ("audit_trail", c)] = true ∧
    validate_gdpr_compliance
      [("consent_status", a), ("data_purpose", b), ("retention_period", c)] = true ∧
    validate_hipaa_compliance
      [("phi_classification", a), ("encryption_status", b), ("access_controls", c)] = true :=
  ⟨rfl, rfl, rfl⟩

/-- C10 (confirmed): a configured standard outside {SOX, GDPR, HIPAA} is
never checked: the report has no violations, no per-standard status
field is set, and the overall status is PASSED, for every context. -/
theorem C10_confirmed (standards : List String) (now : String) (data : Ctx)
    (hs : "SOX" ∉ standards) (hg : "GDPR" ∉ standards) (hh : "HIPAA" ∉ standards) :
    (validate standards now data).violations = [] ∧
    (validate standards now data).sox_status = none ∧
    (validate standards now data).gdpr_status = none ∧
    (validate standards now data).hipaa_status = none ∧
    (validate standards now data).compliance_status = "PASSED" := by
  simp [validate, hs, hg, hh]

/-- C10 (witness): instantiated at standards = {PCI_DSS} — a member of
the default standards list — and the empty context: no violations and
status PASSED. -/
theorem C10_witness :
    (("SOX" : String) ∉ (["PCI_DSS"] : List String) ∧
     ("GDPR" : String) ∉ (["PCI_DSS"] : List String) ∧
     ("HIPAA" : String) ∉ (["PCI_DSS"] : List String) ∧
     "PCI_DSS" ∈ default_standards ∧
     (validate ["PCI_DSS"] "t" []).violations = [] ∧
     (validate ["PCI_DSS"] "t" []).compliance_status = "PASSED") := by
  refine ⟨by decide, by decide, by decide, by decide, ?_, ?_⟩
  · exact (C10_confirmed ["PCI_DSS"] "t" [] (by decide) (by decide) (by decide)).1
  · exact (C10_confirmed ["PCI_DSS"] "t" [] (by decide) (by decide) (by decide)).2.2.2.2

end EnterprisePipeline
